import Mathlib

/-!
Shallow embedding of src/src/V2X_OBU.py: the VANET and LAN listening loops,
the strip_header transform, the shared coordination flags and the lock
discipline of their accesses, and the loop-boundary exit logic.
-/

set_option maxRecDepth 8000

namespace V2XOBU

/-- A byte sequence (Python bytes), each entry a byte value below 256
in intent; the embedding does not need the bound. -/
abbrev Bytes := List Nat

/-- Strict UTF-8 decoding of a byte list to the list of Unicode code points,
as Python bytes.decode with the utf-8 codec performs it: rejects stray
continuation bytes, truncated sequences, overlong encodings, surrogates and
code points above 0x10FFFF by returning none (Python raises
UnicodeDecodeError there, which the bare except of each loop catches). -/
def utf8Decode : List Nat → Option (List Nat)
  | [] => some []
  | b :: rest =>
    if b < 0x80 then
      Option.map (List.cons b) (utf8Decode rest)
    else if b < 0xC2 then
      none
    else if b ≤ 0xDF then
      match rest with
      | c1 :: rest1 =>
        if 0x80 ≤ c1 ∧ c1 ≤ 0xBF then
          Option.map (List.cons ((b - 0xC0) * 0x40 + (c1 - 0x80))) (utf8Decode rest1)
        else none
      | [] => none
    else if b ≤ 0xEF then
      match rest with
      | c1 :: c2 :: rest2 =>
        if (if b = 0xE0 then 0xA0 ≤ c1 ∧ c1 ≤ 0xBF
            else if b = 0xED then 0x80 ≤ c1 ∧ c1 ≤ 0x9F
            else 0x80 ≤ c1 ∧ c1 ≤ 0xBF) ∧ (0x80 ≤ c2 ∧ c2 ≤ 0xBF) then
          Option.map
            (List.cons ((b - 0xE0) * 0x1000 + (c1 - 0x80) * 0x40 + (c2 - 0x80)))
            (utf8Decode rest2)
        else none
      | _ => none
    else if b ≤ 0xF4 then
      match rest with
      | c1 :: c2 :: c3 :: rest3 =>
        if (if b = 0xF0 then 0x90 ≤ c1 ∧ c1 ≤ 0xBF
            else if b = 0xF4 then 0x80 ≤ c1 ∧ c1 ≤ 0x8F
            else 0x80 ≤ c1 ∧ c1 ≤ 0xBF) ∧ (0x80 ≤ c2 ∧ c2 ≤ 0xBF)
            ∧ (0x80 ≤ c3 ∧ c3 ≤ 0xBF) then
          Option.map
            (List.cons ((b - 0xF0) * 0x40000 + (c1 - 0x80) * 0x1000
              + (c2 - 0x80) * 0x40 + (c3 - 0x80)))
            (utf8Decode rest3)
        else none
      | _ => none
    else none

/-- Python bytes.decode with the ascii codec: succeeds iff every byte is
below 0x80, in which case each code point equals the byte. -/
def asciiDecode (p : Bytes) : Option (List Nat) :=
  if p.all (fun b => b < 0x80) then some p else none

/-- Helper for Python str.find: the least index at or after i where pat
occurs in s, scanning left to right. -/
def pyFindAux (pat : List Nat) : List Nat → Nat → Option Nat
  | s, i =>
    if pat.isPrefixOf s then some i
    else
      match s with
      | [] => none
      | _ :: rest => pyFindAux pat rest (i + 1)

/-- Python str.find: index of the first occurrence of pat in s, or -1 when
pat does not occur. -/
def pyFind (s pat : List Nat) : Int :=
  match pyFindAux pat s 0 with
  | some i => (i : Int)
  | none => -1

/-- The code points of the marker string Payload= searched for by
strip_header. -/
def payloadMarker : List Nat := [0x50, 0x61, 0x79, 0x6C, 0x6F, 0x61, 0x64, 0x3D]

/-- Value of one hexadecimal digit character, as binascii.unhexlify accepts
them (both cases); none for a non-hex character. -/
def hexVal (c : Nat) : Option Nat :=
  if 0x30 ≤ c ∧ c ≤ 0x39 then some (c - 0x30)
  else if 0x61 ≤ c ∧ c ≤ 0x66 then some (c - 0x61 + 10)
  else if 0x41 ≤ c ∧ c ≤ 0x46 then some (c - 0x41 + 10)
  else none

/-- binascii.unhexlify on a byte list: pairs of hex digits to bytes; none on
odd length or a non-hex character (Python raises there). -/
def unhexlify : List Nat → Option Bytes
  | [] => some []
  | [_] => none
  | a :: b :: rest =>
    match hexVal a, hexVal b, unhexlify rest with
    | some x, some y, some r => some ((x * 16 + y) :: r)
    | _, _, _ => none

/-- The strip_header function of V2X_OBU.py (lines 222 to 227): decode the
packet as ascii, find the Payload= marker (find yields -1 when absent, so
the slice then starts at index 7), take the slice from just past the marker
to the last character excluded (the Python slice data from idx+8 to -1,
with clamping), and unhexlify it. The intermediate encode to utf-8 is the
identity on these ascii code points. none models a raised exception. -/
def strip_header (packet : Bytes) : Option Bytes :=
  match asciiDecode packet with
  | none => none
  | some data =>
    let idx := pyFind data payloadMarker
    let start := (idx + 8).toNat
    let payload := (data.take (data.length - 1)).drop start
    unhexlify payload

/-- A Python value as relevant to the VANET loop: previous_packet_received
starts as the str value of no characters (line 132) and is later assigned
the bytes value pkt.get 0 (line 156); the comparison at line 150 is between
the decoded str and this variable. -/
inductive PyVal where
  | str : List Nat → PyVal
  | bytes : Bytes → PyVal
deriving DecidableEq

/-- Python equality between a str (given by its code points) and a PyVal:
two str values compare by their characters, while a str compared with a
bytes object is always False in Python 3. -/
def pyStrEq (data : List Nat) : PyVal → Bool
  | PyVal.str s => decide (data = s)
  | PyVal.bytes _ => false

/-- The shared coordination flags: the module-level error and
waiting_for_ack globals. -/
structure CoordState where
  error : Bool
  waiting_for_ack : Bool
deriving DecidableEq

/-- A send_data call made during an iteration: sendVANET passes its bytes
to the VANET transport unchanged, sendLAN passes strip_header of its
argument to the LAN transport; the constructors record the bytes given to
the transport. -/
inductive Send where
  | toVANET : Bytes → Send
  | toLAN : Bytes → Send
deriving DecidableEq

/-- How the try block of a VANET loop iteration ends: normally, with a
raised exception caught by the bare except (decode or strip_header
failure), or with the NotImplementedError raised when parseVANETPacket is
set. Both raising outcomes are caught by the same bare except. -/
inductive VanetOutcome where
  | ok
  | exception
  | notImplemented
deriving DecidableEq

/-- Result of one VANET loop iteration body: the coordination flags, the
thread-local previous_packet_received, the send_data calls made, and how
the try block ended. -/
structure VanetIterResult where
  state : CoordState
  previous_packet_received : PyVal
  sends : List Send
  outcome : VanetOutcome
deriving DecidableEq

/-- The ack sentinel, the bytes literal of the single byte 0x31 (line 133). -/
def ack : Bytes := [0x31]

/-- One iteration of the body of VANET_listening_thread (lines 139 to 169),
on the packet list returned by vanet.recv_packets. When the list is
nonempty and parseVANETPacket is unset, the head is decoded as utf-8
(failure is a caught exception); if the decoded str equals the one
character string 1 the waiting_for_ack flag is cleared under the mutex
and nothing is sent; else if it equals previous_packet_received (a
str-to-PyVal comparison) only the ack is re-sent; else the ack is sent to
VANET, strip_header of the raw head is sent to LAN (a strip_header failure
raises after the ack send, leaving previous_packet_received unchanged),
and previous_packet_received is assigned the raw head bytes. When
parseVANETPacket is set and a packet is present, NotImplementedError is
raised before anything is sent. -/
def VANET_listening_step (parseVANETPacket : Bool) (st : CoordState)
    (previous_packet_received : PyVal) (pkts : List Bytes) : VanetIterResult :=
  match pkts with
  | [] => ⟨st, previous_packet_received, [], VanetOutcome.ok⟩
  | p0 :: _ =>
    if !parseVANETPacket then
      match utf8Decode p0 with
      | none => ⟨st, previous_packet_received, [], VanetOutcome.exception⟩
      | some data =>
        if data = [0x31] then
          ⟨{ st with waiting_for_ack := false }, previous_packet_received,
            [], VanetOutcome.ok⟩
        else if pyStrEq data previous_packet_received then
          ⟨st, previous_packet_received, [Send.toVANET ack], VanetOutcome.ok⟩
        else
          match strip_header p0 with
          | some stripped =>
            ⟨st, PyVal.bytes p0, [Send.toVANET ack, Send.toLAN stripped],
              VanetOutcome.ok⟩
          | none =>
            ⟨st, previous_packet_received, [Send.toVANET ack],
              VanetOutcome.exception⟩
    else
      ⟨st, previous_packet_received, [], VanetOutcome.notImplemented⟩

/-- Whether the bare except handler of the VANET loop runs (printing or
logging a waiting message and sleeping 0.25 seconds) for a given try-block
outcome: it does for both a generic exception and the NotImplementedError. -/
def vanetBackoff : VanetOutcome → Bool
  | VanetOutcome.ok => false
  | VanetOutcome.exception => true
  | VanetOutcome.notImplemented => true

/-- How the try block of a LAN loop iteration ends: no packet, delivered
(final waiting_for_ack read false, no exception), deliveryFailed (the
Exception raised at line 202 because waiting_for_ack was still true), or
the NotImplementedError of the parse branch. -/
inductive LanOutcome where
  | noPacket
  | delivered
  | deliveryFailed
  | notImplemented
deriving DecidableEq

/-- Result of one LAN loop iteration body: the send_data calls, whether
the iteration set waiting_for_ack to true (line 190), how the try block
ended, and the error flag after the body (the body never assigns it). -/
structure LanIterResult where
  sends : List Send
  sets_waiting_for_ack : Bool
  outcome : LanOutcome
  error : Bool
deriving DecidableEq

/-- The number of resends performed by the retry for-loop (lines 193 to
200) starting at attempt index i with fuel attempts remaining: each
attempt reads waiting_for_ack under the mutex (the value observed at
attempt j is obs j); a true read re-sends and continues, a false read
breaks before sending. -/
def retryCount (obs : Nat → Bool) : Nat → Nat → Nat
  | _, 0 => 0
  | i, f + 1 => if obs i then retryCount obs (i + 1) f + 1 else 0

/-- One iteration of the body of LAN_listening_thread (lines 184 to 214),
on the packet list returned by lan.recv_packets. The values of
waiting_for_ack observed concurrently are given by the oracle obs (the
read under the mutex at retry attempt j) and finalObs (the unlocked read
at line 201). With a packet present and parseLANPacket unset: the raw head
is sent to VANET, waiting_for_ack is set to true, the bounded retry loop
of 120 attempts re-sends the same raw head while the observed flag stays
true, and afterwards a still-true flag raises the delivery failure
Exception (caught by the bare except). With parseLANPacket set,
NotImplementedError is raised before anything is sent. -/
def LAN_listening_step (parseLANPacket : Bool) (error : Bool)
    (pkts : List Bytes) (obs : Nat → Bool) (finalObs : Bool) : LanIterResult :=
  match pkts with
  | [] => ⟨[], false, LanOutcome.noPacket, error⟩
  | p0 :: _ =>
    if !parseLANPacket then
      let k := retryCount obs 0 120
      ⟨Send.toVANET p0 :: List.replicate k (Send.toVANET p0), true,
        if finalObs then LanOutcome.deliveryFailed else LanOutcome.delivered,
        error⟩
    else
      ⟨[], false, LanOutcome.notImplemented, error⟩

/-- Whether the bare except handler of the LAN loop runs (backoff sleep of
0.25 seconds) for a given try-block outcome. -/
def lanBackoff : LanOutcome → Bool
  | LanOutcome.noPacket => false
  | LanOutcome.delivered => false
  | LanOutcome.deliveryFailed => true
  | LanOutcome.notImplemented => true

/-- Loop-boundary state of the process: the two transport error flags
(vanet.error and lan.error, set by the adapters, never by this code), the
shared fatal error flag, and whether each listening thread has terminated. -/
structure SysState where
  vanet_error : Bool
  lan_error : Bool
  error : Bool
  vanetDone : Bool
  lanDone : Bool
deriving DecidableEq

/-- The iteration-boundary decision of VANET_listening_thread: the while
condition at line 134 exits when vanet.error is set, and the mutex-guarded
check at lines 135 to 137 breaks when error is set; either exit path falls
through to lines 171 to 173, which set error to true under the mutex.
Otherwise the loop proceeds into the iteration body unchanged. -/
def VANET_boundary (s : SysState) : SysState :=
  if s.vanetDone then s
  else if s.vanet_error || s.error then
    { s with vanetDone := true, error := true }
  else s

/-- The iteration-boundary decision of LAN_listening_thread: the while
condition at line 178 exits when lan.error is set, the mutex-guarded check
at lines 179 to 182 breaks when error is set, and either exit path falls
through to lines 216 to 218, which set error to true under the mutex. -/
def LAN_boundary (s : SysState) : SysState :=
  if s.lanDone then s
  else if s.lan_error || s.error then
    { s with lanDone := true, error := true }
  else s

/-- Which piece of code performs a Coordination State access: the VANET
listening thread, the LAN listening thread, or the supervisor (the main
function). -/
inductive Accessor where
  | vanetLoop
  | lanLoop
  | supervisor
deriving DecidableEq

/-- The three Coordination State fields named by the specification: the
fatal error flag (error), the awaiting acknowledgment flag
(waiting_for_ack), and the last forwarded message
(previous_packet_received, a local variable of VANET_listening_thread in
the code). -/
inductive CoordField where
  | error
  | waiting_for_ack
  | previous_packet_received
deriving DecidableEq

/-- One static access to a Coordination State field in V2X_OBU.py: who
performs it, which field, the source line, whether it is a write, and
whether the access occurs inside a with mutex block. -/
structure Access where
  who : Accessor
  field : CoordField
  line : Nat
  isWrite : Bool
  underLock : Bool
deriving DecidableEq

/-- Every access to the three Coordination State fields performed by the
two listening threads and by the main function, transcribed from
V2X_OBU.py: line 132 initializes previous_packet_received (no lock); line
136 reads error inside the with mutex block of lines 135 to 137; line 148
writes waiting_for_ack inside the with mutex block of line 147; lines 150
and 156 read and write previous_packet_received with no lock; line 172
writes error inside the with mutex block of line 171; line 180 reads error
inside the with mutex block of line 179; line 190 writes waiting_for_ack
with no lock; line 195 reads waiting_for_ack inside the with mutex block
of line 194; line 201 reads waiting_for_ack with no lock; line 217 writes
error inside the with mutex block of line 216; lines 250 and 255 in main
read and write error with no lock. -/
def coordStateAccesses : List Access :=
  [⟨Accessor.vanetLoop, CoordField.previous_packet_received, 132, true, false⟩,
   ⟨Accessor.vanetLoop, CoordField.error, 136, false, true⟩,
   ⟨Accessor.vanetLoop, CoordField.waiting_for_ack, 148, true, true⟩,
   ⟨Accessor.vanetLoop, CoordField.previous_packet_received, 150, false, false⟩,
   ⟨Accessor.vanetLoop, CoordField.previous_packet_received, 156, true, false⟩,
   ⟨Accessor.vanetLoop, CoordField.error, 172, true, true⟩,
   ⟨Accessor.lanLoop, CoordField.error, 180, false, true⟩,
   ⟨Accessor.lanLoop, CoordField.waiting_for_ack, 190, true, false⟩,
   ⟨Accessor.lanLoop, CoordField.waiting_for_ack, 195, false, true⟩,
   ⟨Accessor.lanLoop, CoordField.waiting_for_ack, 201, false, false⟩,
   ⟨Accessor.lanLoop, CoordField.error, 217, true, true⟩,
   ⟨Accessor.supervisor, CoordField.error, 250, false, false⟩,
   ⟨Accessor.supervisor, CoordField.error, 255, true, false⟩]

/-- The lock discipline asserted by the specification: every access to the
three Coordination State fields by either loop or the supervisor occurs
while holding the mutex. -/
def lockDiscipline : Prop :=
  ∀ a ∈ coordStateAccesses, a.underLock = true

/-- The inbound frame used to exercise the duplicate branch: the ascii
bytes of Payload=41 followed by a line feed. Its strip_header image is the
single byte 0x41. -/
def dupFrame : Bytes :=
  [0x50, 0x61, 0x79, 0x6C, 0x6F, 0x61, 0x64, 0x3D, 0x34, 0x31, 0x0A]

/-- The frame used for the strip_header direction check: the ascii bytes
of Payload=4142 followed by a line feed. -/
def payloadFrame : Bytes :=
  [0x50, 0x61, 0x79, 0x6C, 0x6F, 0x61, 0x64, 0x3D, 0x34, 0x31, 0x34, 0x32, 0x0A]

/-- Number of send_data calls towards the LAN transport in a send list. -/
def countToLAN (sends : List Send) : Nat :=
  sends.countP (fun s => match s with | Send.toLAN _ => true | _ => false)

/-- Number of ack sentinel sends towards the VANET transport in a send
list. -/
def countAcks (sends : List Send) : Nat :=
  sends.countP (fun s => decide (s = Send.toVANET ack))

theorem retryCount_all_true (obs : Nat → Bool) :
    ∀ f i, (∀ j, j < f → obs (i + j) = true) → retryCount obs i f = f := by
  intro f
  induction f with
  | zero => intro i _; rfl
  | succ f ih =>
    intro i h
    have h0 : obs i = true := by simpa using h 0 (Nat.succ_pos f)
    have hrec : retryCount obs (i + 1) f = f := by
      apply ih
      intro j hj
      have heq : i + 1 + j = i + (j + 1) := by omega
      rw [heq]
      exact h (j + 1) (by omega)
    simp [retryCount, h0, hrec]

theorem retryCount_first_false (obs : Nat → Bool) :
    ∀ f k i, k < f → (∀ j, j < k → obs (i + j) = true) → obs (i + k) = false →
      retryCount obs i f = k := by
  intro f
  induction f with
  | zero => intro k i hk _ _; omega
  | succ f ih =>
    intro k i hk hall hfalse
    cases k with
    | zero =>
      have h0 : obs i = false := by simpa using hfalse
      simp [retryCount, h0]
    | succ k =>
      have h0 : obs i = true := by simpa using hall 0 (Nat.succ_pos k)
      have hrec : retryCount obs (i + 1) f = k := by
        apply ih k (i + 1) (by omega)
        · intro j hj
          have heq : i + 1 + j = i + (j + 1) := by omega
          rw [heq]
          exact hall (j + 1) (by omega)
        · have heq : i + 1 + k = i + (k + 1) := by omega
          rw [heq]
          exact hfalse
      simp [retryCount, h0, hrec]

theorem VANET_step_state_cases (parse : Bool) (st : CoordState) (prev : PyVal)
    (pkts : List Bytes) :
    (VANET_listening_step parse st prev pkts).state = st
      ∨ (VANET_listening_step parse st prev pkts).state
          = { st with waiting_for_ack := false } := by
  cases pkts with
  | nil => exact Or.inl rfl
  | cons p rest =>
    cases parse with
    | true => exact Or.inl rfl
    | false =>
      rcases hdec : utf8Decode p with _ | data
      · simp [VANET_listening_step, hdec]
      · by_cases hack : data = [0x31]
        · simp [VANET_listening_step, hdec, hack]
        · by_cases hdup : pyStrEq data prev = true
          · simp [VANET_listening_step, hdec, hack, hdup]
          · rcases hstrip : strip_header p with _ | stripped
            · simp [VANET_listening_step, hdec, hack, hdup, hstrip]
            · simp [VANET_listening_step, hdec, hack, hdup, hstrip]

theorem VANET_step_nonack (st : CoordState) (prev : PyVal) (f : Bytes)
    (rest : List Bytes) (d : List Nat) (hdec : utf8Decode f = some d)
    (hne : d ≠ [0x31]) :
    (VANET_listening_step false st prev (f :: rest)).state.waiting_for_ack
        = st.waiting_for_ack
    ∧ (VANET_listening_step false st prev (f :: rest)).sends ≠ [] := by
  by_cases hdup : pyStrEq d prev = true
  · constructor <;> simp [VANET_listening_step, hdec, hne, hdup]
  · rcases hstrip : strip_header f with _ | stripped
    · constructor <;> simp [VANET_listening_step, hdec, hne, hdup, hstrip]
    · constructor <;> simp [VANET_listening_step, hdec, hne, hdup, hstrip]

/-- C1: refutation of duplicate suppression at a concrete input. Running
the VANET loop body three times on the same inbound frame dupFrame, each
time with the previous_packet_received the code actually holds (the initial
empty str, then the raw bytes stored by the first iteration), the frame is
classified as new every time: the stripped frame is forwarded to the LAN
transport in all three iterations rather than exactly once. The first
iteration stores the frame as a bytes value, and the comparison the
duplicate branch makes, between the decoded str and that bytes value, is
False in Python 3 regardless of content, which the final conjunct records.
The ack sentinel is still sent three times. -/
theorem C1_duplicates_forwarded_every_time :
    (VANET_listening_step false ⟨false, false⟩ (PyVal.str [])
        [dupFrame]).previous_packet_received = PyVal.bytes dupFrame
    ∧ countToLAN
        ((VANET_listening_step false ⟨false, false⟩ (PyVal.str []) [dupFrame]).sends
          ++ (VANET_listening_step false ⟨false, false⟩ (PyVal.bytes dupFrame)
                [dupFrame]).sends
          ++ (VANET_listening_step false ⟨false, false⟩ (PyVal.bytes dupFrame)
                [dupFrame]).sends) = 3
    ∧ countAcks
        ((VANET_listening_step false ⟨false, false⟩ (PyVal.str []) [dupFrame]).sends
          ++ (VANET_listening_step false ⟨false, false⟩ (PyVal.bytes dupFrame)
                [dupFrame]).sends
          ++ (VANET_listening_step false ⟨false, false⟩ (PyVal.bytes dupFrame)
                [dupFrame]).sends) = 3
    ∧ pyStrEq dupFrame (PyVal.bytes dupFrame) = false := by decide

/-- C2: refutation of the claimed lock discipline. Not every access to the
three Coordination State fields by the loops and the supervisor is made
under the mutex: the write of waiting_for_ack at line 190 of
LAN_listening_thread is outside any with mutex block. -/
theorem C2_lock_discipline_refuted : ¬ lockDiscipline := by
  intro h
  have hmem : (⟨Accessor.lanLoop, CoordField.waiting_for_ack, 190, true, false⟩
      : Access) ∈ coordStateAccesses := by decide
  have hfalse := h _ hmem
  simp at hfalse

/-- C2 amended: the actual lock discipline of the code. The accesses made
under the mutex are exactly the error read and waiting_for_ack clear of
the VANET loop, both exit writes of error, the error read of the LAN loop
and its in-cycle read of waiting_for_ack (lines 136, 148, 172, 180, 195,
217); outside the mutex are the initialization, comparison and update of
previous_packet_received (a variable local to the VANET thread, lines 132,
150, 156), the LAN loop write of waiting_for_ack before the retry cycle
and its read after the cycle (lines 190, 201), and the supervisor read and
write of error (lines 250, 255). -/
theorem C2_lock_discipline_actual :
    ((coordStateAccesses.filter (fun a => !a.underLock)).map (fun a => a.line))
        = [132, 150, 156, 190, 201, 250, 255]
    ∧ ((coordStateAccesses.filter (fun a => a.underLock)).map (fun a => a.line))
        = [136, 148, 172, 180, 195, 217] := by decide

/-- C3: bounded retry termination. For a LAN message forwarded to VANET,
if every one of the 120 retry attempts observes waiting_for_ack still
true, the iteration sends the message once and then re-sends it exactly
120 more times, and a still-true final read makes the iteration raise the
delivery failure; if some attempt k (the first) observes the flag false,
the cycle stops there, having re-sent exactly k times, and a false final
read means the iteration ends as delivered. -/
theorem C3_bounded_retry (p : Bytes) (rest : List Bytes) (er : Bool)
    (obs : Nat → Bool) (finalObs : Bool) :
    ((∀ i, i < 120 → obs i = true) →
        (LAN_listening_step false er (p :: rest) obs finalObs).sends
            = Send.toVANET p :: List.replicate 120 (Send.toVANET p)
          ∧ (finalObs = true →
              (LAN_listening_step false er (p :: rest) obs finalObs).outcome
                = LanOutcome.deliveryFailed))
      ∧ (∀ k, k < 120 → (∀ i, i < k → obs i = true) → obs k = false →
          (LAN_listening_step false er (p :: rest) obs finalObs).sends
              = Send.toVANET p :: List.replicate k (Send.toVANET p)
            ∧ (finalObs = false →
                (LAN_listening_step false er (p :: rest) obs finalObs).outcome
                  = LanOutcome.delivered)) := by
  constructor
  · intro h
    have hk : retryCount obs 0 120 = 120 :=
      retryCount_all_true obs 120 0 (fun j hj => by simpa using h j hj)
    constructor
    · simp [LAN_listening_step, hk]
    · intro hfin
      simp [LAN_listening_step, hfin]
  · intro k hk hall hfalse
    have hc : retryCount obs 0 120 = k :=
      retryCount_first_false obs 120 k 0 hk
        (fun j hj => by simpa using hall j hj) (by simpa using hfalse)
    constructor
    · simp [LAN_listening_step, hc]
    · intro hfin
      simp [LAN_listening_step, hfin]

/-- Witness for C3 at a concrete input: with every attempt observing the
flag true and the final read true, the iteration on the one-packet batch
containing the byte 0x41 sends the packet once plus 120 resends and ends
in delivery failure. -/
theorem C3_bounded_retry_witness :
    (LAN_listening_step false false [[0x41]] (fun _ => true) true).sends
        = Send.toVANET [0x41] :: List.replicate 120 (Send.toVANET [0x41])
      ∧ (LAN_listening_step false false [[0x41]] (fun _ => true) true).outcome
        = LanOutcome.deliveryFailed := by
  have h := (C3_bounded_retry [0x41] [] false (fun _ => true) true).1
    (fun i _ => rfl)
  exact ⟨h.1, h.2 rfl⟩

/-- C4: delivery failure is non-fatal. When the retry cycle is exhausted
with waiting_for_ack still observed true, the iteration ends in the
deliveryFailed outcome (the raised Exception), the error flag after the
body equals the error flag before it (this path never sets it), the bare
except handler runs its backoff, and a LAN loop boundary with no transport
error and no fatal error proceeds unchanged into the next iteration. -/
theorem C4_delivery_failure_nonfatal (p : Bytes) (rest : List Bytes)
    (er : Bool) (obs : Nat → Bool) (hobs : ∀ i, i < 120 → obs i = true) :
    (LAN_listening_step false er (p :: rest) obs true).outcome
        = LanOutcome.deliveryFailed
    ∧ (LAN_listening_step false er (p :: rest) obs true).error = er
    ∧ lanBackoff (LAN_listening_step false er (p :: rest) obs true).outcome
        = true
    ∧ (∀ s : SysState, s.lanDone = false → s.lan_error = false →
        s.error = false → LAN_boundary s = s) := by
  refine ⟨by simp [LAN_listening_step], by simp [LAN_listening_step],
    by simp [LAN_listening_step, lanBackoff], ?_⟩
  intro s h1 h2 h3
  simp [LAN_boundary, h1, h2, h3]

/-- Witness for C4 at a concrete input. -/
theorem C4_delivery_failure_nonfatal_witness :
    (LAN_listening_step false false [[0x41]] (fun _ => true) true).outcome
        = LanOutcome.deliveryFailed
    ∧ (LAN_listening_step false false [[0x41]] (fun _ => true) true).error
        = false := by
  have h := C4_delivery_failure_nonfatal [0x41] [] false (fun _ => true)
    (fun i _ => rfl)
  exact ⟨h.1, h.2.1⟩

/-- C5: acknowledgment handling. On an inbound frame equal to the ack
sentinel the VANET iteration clears waiting_for_ack, sends nothing to
either transport, leaves previous_packet_received unchanged and ends
normally; in every iteration, on any input and in either parse mode, the
VANET loop never turns waiting_for_ack from false to true; and every
waiting_for_ack access of the VANET loop in the source is under the mutex. -/
theorem C5_ack_handling (st : CoordState) (prev : PyVal) (rest : List Bytes)
    (parse : Bool) (pkts : List Bytes) :
    VANET_listening_step false st prev (ack :: rest)
        = ⟨{ st with waiting_for_ack := false }, prev, [], VanetOutcome.ok⟩
    ∧ ((VANET_listening_step parse st prev pkts).state.waiting_for_ack = true →
        st.waiting_for_ack = true)
    ∧ ((coordStateAccesses.filter
          (fun a => a.who = Accessor.vanetLoop
            ∧ a.field = CoordField.waiting_for_ack)).all
        (fun a => a.underLock)) = true := by
  refine ⟨rfl, ?_, by decide⟩
  intro h
  rcases VANET_step_state_cases parse st prev pkts with hc | hc
  · rw [hc] at h
    exact h
  · rw [hc] at h
    simp at h

/-- Witness for C5 at a concrete input: the ack frame clears a set
waiting_for_ack flag with no sends. -/
theorem C5_ack_handling_witness :
    VANET_listening_step false ⟨false, true⟩ (PyVal.str []) (ack :: [])
      = ⟨⟨false, false⟩, PyVal.str [], [], VanetOutcome.ok⟩ :=
  (C5_ack_handling ⟨false, true⟩ (PyVal.str []) [] false []).1

/-- C6: refutation of the claimed direction. The strip_header transform is
not applied to a message before it is forwarded to the VANET transport: on
the concrete frame payloadFrame, whose strip_header image is the two bytes
0x41 0x42 and differs from the frame, the LAN loop iteration hands the
VANET transport the raw frame. -/
theorem C6_strip_header_not_applied_towards_VANET :
    strip_header payloadFrame = some [0x41, 0x42]
    ∧ payloadFrame ≠ [0x41, 0x42]
    ∧ (LAN_listening_step false false [payloadFrame] (fun _ => false) false).sends
        = [Send.toVANET payloadFrame] := by decide

/-- C6 amended: the header-stripping transform is applied inside sendLAN,
so it transforms a message before it is forwarded to the LAN transport:
when the VANET loop forwards a new message, the LAN transport receives the
strip_header image of the raw frame; messages forwarded by the LAN loop to
the VANET transport are sent raw. -/
theorem C6_strip_header_applied_towards_LAN (st : CoordState) (prev : PyVal)
    (p : Bytes) (rest : List Bytes) (d : List Nat) (stripped : Bytes)
    (hdec : utf8Decode p = some d) (hack : d ≠ [0x31])
    (hdup : pyStrEq d prev = false) (hstrip : strip_header p = some stripped) :
    (VANET_listening_step false st prev (p :: rest)).sends
        = [Send.toVANET ack, Send.toLAN stripped]
    ∧ (∀ (q : Bytes) (rs : List Bytes) (er : Bool) (obs : Nat → Bool)
        (fo : Bool),
        (LAN_listening_step false er (q :: rs) obs fo).sends.head?
          = some (Send.toVANET q)) := by
  constructor
  · simp [VANET_listening_step, hdec, hack, hdup, hstrip]
  · intro q rs er obs fo
    simp [LAN_listening_step]

/-- Witness for the amended C6 at a concrete input. -/
theorem C6_strip_header_applied_towards_LAN_witness :
    (VANET_listening_step false ⟨false, false⟩ (PyVal.str []) [payloadFrame]).sends
      = [Send.toVANET ack, Send.toLAN [0x41, 0x42]] :=
  (C6_strip_header_applied_towards_LAN ⟨false, false⟩ (PyVal.str [])
    payloadFrame [] payloadFrame [0x41, 0x42]
    (by decide) (by decide) (by decide) (by decide)).1

/-- C7: unimplemented parsing modes. With the parse flag set and a packet
available, each loop iteration ends in the distinct notImplemented outcome
(the raised NotImplementedError), sends nothing, leaves the coordination
flags and previous_packet_received unchanged, the bare except handler then
runs its backoff, and a boundary with no transport error and no fatal
error proceeds into the next iteration. -/
theorem C7_notImplemented_nonfatal (st : CoordState) (prev : PyVal)
    (p : Bytes) (rest : List Bytes) (er : Bool) (obs : Nat → Bool)
    (fo : Bool) :
    VANET_listening_step true st prev (p :: rest)
        = ⟨st, prev, [], VanetOutcome.notImplemented⟩
    ∧ LAN_listening_step true er (p :: rest) obs fo
        = ⟨[], false, LanOutcome.notImplemented, er⟩
    ∧ vanetBackoff VanetOutcome.notImplemented = true
    ∧ lanBackoff LanOutcome.notImplemented = true
    ∧ (∀ s : SysState, s.vanetDone = false → s.vanet_error = false →
        s.error = false → VANET_boundary s = s) := by
  refine ⟨rfl, rfl, rfl, rfl, ?_⟩
  intro s h1 h2 h3
  simp [VANET_boundary, h1, h2, h3]

/-- Witness for C7 at a concrete input. -/
theorem C7_notImplemented_nonfatal_witness :
    VANET_listening_step true ⟨false, false⟩ (PyVal.str []) [[0x41]]
      = ⟨⟨false, false⟩, PyVal.str [], [], VanetOutcome.notImplemented⟩ :=
  (C7_notImplemented_nonfatal ⟨false, false⟩ (PyVal.str []) [0x41] [] false
    (fun _ => false) false).1

/-- C8: fatal propagation. Whenever a loop boundary step makes a running
loop terminate, the fatal error flag is true afterwards; a boundary
reached with the fatal error flag already true makes the loop terminate
without entering the iteration body; and from any state with both loops
running in which the VANET transport error flag is set, one VANET boundary
step followed by one LAN boundary step leaves both loops terminated with
the fatal error flag true. -/
theorem C8_fatal_propagation (s : SysState) :
    (s.vanetDone = false → (VANET_boundary s).vanetDone = true →
        (VANET_boundary s).error = true)
    ∧ (s.lanDone = false → (LAN_boundary s).lanDone = true →
        (LAN_boundary s).error = true)
    ∧ (s.error = true → s.vanetDone = false →
        (VANET_boundary s).vanetDone = true)
    ∧ (s.error = true → s.lanDone = false →
        (LAN_boundary s).lanDone = true)
    ∧ (s.vanet_error = true → s.vanetDone = false → s.lanDone = false →
        (LAN_boundary (VANET_boundary s)).vanetDone = true
        ∧ (LAN_boundary (VANET_boundary s)).lanDone = true
        ∧ (LAN_boundary (VANET_boundary s)).error = true) := by
  obtain ⟨ve, le, e, vd, ld⟩ := s
  cases ve <;> cases le <;> cases e <;> cases vd <;> cases ld <;>
    simp [VANET_boundary, LAN_boundary]

/-- Witness for C8 at a concrete state: VANET transport errored, both
loops running, no fatal error yet. -/
theorem C8_fatal_propagation_witness :
    (LAN_boundary (VANET_boundary ⟨true, false, false, false, false⟩)).vanetDone
        = true
    ∧ (LAN_boundary (VANET_boundary ⟨true, false, false, false, false⟩)).lanDone
        = true
    ∧ (LAN_boundary (VANET_boundary ⟨true, false, false, false, false⟩)).error
        = true :=
  (C8_fatal_propagation ⟨true, false, false, false, false⟩).2.2.2.2 rfl rfl rfl

/-- C9: single-packet consumption per poll. Each iteration of either loop
depends only on the head of the batch returned by recv_packets: replacing
every packet after the first by any other list leaves the iteration result
(state, sends, outcome) unchanged, so trailing packets are discarded
without classification, forwarding or acknowledgment. -/
theorem C9_single_packet_per_poll (parseV parseL : Bool) (st : CoordState)
    (prev : PyVal) (p : Bytes) (rest rest' : List Bytes) (er : Bool)
    (obs : Nat → Bool) (fo : Bool) :
    VANET_listening_step parseV st prev (p :: rest)
        = VANET_listening_step parseV st prev (p :: rest')
    ∧ LAN_listening_step parseL er (p :: rest) obs fo
        = LAN_listening_step parseL er (p :: rest') obs fo :=
  ⟨rfl, rfl⟩

/-- C10: whole-frame ack classification. A frame is handled by the ack
branch exactly when its whole utf-8 decoding is the one-character string
of the digit one: such a frame unconditionally clears waiting_for_ack
(whatever its prior value and whatever previous_packet_received holds) and
is never forwarded to LAN; any frame whose decoding differs leaves
waiting_for_ack unchanged and causes at least one send; and the
two-byte frame starting with 0x31 decodes to a two-character string, so it
is not classified as an acknowledgment. -/
theorem C10_whole_frame_ack_classification (st : CoordState) (prev : PyVal)
    (f : Bytes) (rest : List Bytes) :
    (utf8Decode f = some [0x31] →
        VANET_listening_step false st prev (f :: rest)
          = ⟨{ st with waiting_for_ack := false }, prev, [], VanetOutcome.ok⟩)
    ∧ (∀ d, utf8Decode f = some d → d ≠ [0x31] →
        (VANET_listening_step false st prev (f :: rest)).state.waiting_for_ack
            = st.waiting_for_ack
          ∧ (VANET_listening_step false st prev (f :: rest)).sends ≠ [])
    ∧ utf8Decode [0x31, 0x32] = some [0x31, 0x32]
    ∧ (VANET_listening_step false st prev ([0x31, 0x32] :: rest)).state.waiting_for_ack
        = st.waiting_for_ack := by
  refine ⟨?_, fun d hdec hne => VANET_step_nonack st prev f rest d hdec hne,
    by decide, ?_⟩
  · intro hdec
    simp [VANET_listening_step, hdec]
  · exact (VANET_step_nonack st prev [0x31, 0x32] rest [0x31, 0x32]
      (by decide) (by decide)).1

/-- Witness for C10 at a concrete input: the exact sentinel frame clears a
set flag even though previous_packet_received holds the same bytes. -/
theorem C10_whole_frame_ack_classification_witness :
    VANET_listening_step false ⟨true, true⟩ (PyVal.bytes [0x31]) [[0x31]]
      = ⟨⟨true, false⟩, PyVal.bytes [0x31], [], VanetOutcome.ok⟩ :=
  (C10_whole_frame_ack_classification ⟨true, true⟩ (PyVal.bytes [0x31])
    [0x31] []).1 (by decide)

end V2XOBU
